import Mathlib

/-!
A shallow embedding of `CanvasSaver.py` (a one-shot Canvas course export
tool) together with proofs of the specification claims about it.

Modelling conventions:
* Python strings are Lean `String`s (operated on via `List Char`).
* Python `str.replace`, `str.split`, `str.startswith`, `in`, and
  `str.isdigit` are re-implemented on `List Char` to mirror the exact
  Python semantics used in the source.
* HTTP traffic is modelled by an explicit server function
  `String → Option Params → HttpResponse α`: the source's `urljoin` of a
  fixed base URL with an endpoint is abstracted by keying the server on
  endpoint strings directly.  `requests` exceptions become an `Except`
  error channel; the unbounded `while url:` loop of `canvas_request` is
  given fuel, with fuel exhaustion modelling non-termination.
* Parsed HTML (BeautifulSoup) is modelled by a node tree `Node`;
  the parse/serialize round-trip of the source (a transformed document is
  re-parsed for link extraction) is abstracted by passing the node tree.
* Filesystem effects are reified as a list of `FsEvent`s; when an
  exception propagates, only the error is reported (the events already
  performed before the exception are not observed by any claim).
-/

namespace CanvasSaver

/-! ## Python string primitives on `List Char` -/

/-- Python `pat in s` (substring containment) on char lists. -/
def hasSubstr (pat : List Char) : List Char → Bool
  | [] => pat.isEmpty
  | c :: rest => pat.isPrefixOf (c :: rest) || hasSubstr pat rest

/-- Scanner for `pyReplace`, structurally recursive on a fuel that
bounds the number of scanning steps: every step consumes at least one
character, so `fuel = l.length` never runs out. -/
def pyReplaceAux (pat rep : List Char) : Nat → List Char → List Char
  | 0, l => l
  | _ + 1, [] => []
  | fuel + 1, c :: rest =>
    if pat.isPrefixOf (c :: rest) then
      rep ++ pyReplaceAux pat rep fuel (rest.drop (pat.length - 1))
    else
      c :: pyReplaceAux pat rep fuel rest

/-- Python `s.replace(pat, rep)`: replace every occurrence of `pat`,
left to right, non-overlapping.  (Never called with an empty `pat` by the
source.) -/
def pyReplace (pat rep l : List Char) : List Char :=
  pyReplaceAux pat rep l.length l

/-- Scanner for `pySplit`, with the same fuel discipline as
`pyReplaceAux`. -/
def pySplitAux (sep : List Char) : Nat → List Char → List Char → List (List Char)
  | 0, _, acc => [acc.reverse]
  | _ + 1, [], acc => [acc.reverse]
  | fuel + 1, c :: rest, acc =>
    if sep.isPrefixOf (c :: rest) then
      acc.reverse :: pySplitAux sep fuel (rest.drop (sep.length - 1)) []
    else
      pySplitAux sep fuel rest (c :: acc)

/-- Python `s.split(sep)` for non-empty `sep`: split on every
non-overlapping occurrence, left to right. -/
def pySplit (sep l : List Char) : List (List Char) :=
  pySplitAux sep l.length l []

/-- Python `s.split(sep, 1)[0]`: the segment before the first occurrence
of the single-character separator `c` (the whole string when absent). -/
def splitHead (c : Char) (l : List Char) : List Char :=
  l.takeWhile (fun d => d ≠ c)

/-- Python `s.isdigit()` restricted to ASCII decimal digits (the only
case the spec and the claims exercise): true iff `l` is non-empty and
every character is a decimal digit. -/
def pyIsDigit (l : List Char) : Bool :=
  !l.isEmpty && l.all (fun c => c.isDigit)

/-! ## `sanitize_filename` (source lines 53–55)

`re.sub(r'[\\/*?:"<>|]', '_', name)`: every character of the class is
replaced by an underscore, each occurrence independently. -/

/-- The characters forbidden by the sanitizer's regex class. -/
def forbiddenChars : List Char :=
  ['\\', '/', '*', '?', ':', '"', '<', '>', '|']

/-- Replacement applied to a single character by `re.sub`. -/
def sanitizeChar (c : Char) : Char :=
  if c ∈ forbiddenChars then '_' else c

/-- `sanitize_filename` from the source: regex-substitute each forbidden
character with an underscore. -/
def sanitize_filename (s : String) : String :=
  String.mk (s.toList.map sanitizeChar)

/-! ## `get_file_info_from_link` (source lines 156–167) -/

/-- `get_file_info_from_link` from the source: split the href on
`/files/`; if fewer than two parts, no reference; otherwise take the
second part up to the next `/` then up to the next `?`, and accept it
only if it `isdigit`. -/
def get_file_info_from_link (href : String) : Option String :=
  match pySplit ("/files/".toList) href.toList with
  | _ :: right :: _ =>
    let tok := splitHead '?' (splitHead '/' right)
    if pyIsDigit tok then some (String.mk tok) else none
  | _ => none

/-! ## The embed-src rewrite inside `fix_youtube_embeds`
(source lines 120–139), as a function on one `src` string. -/

/-- Python `while temp.startswith('//'): temp = temp[1:]` from
`fix_youtube_embeds`. -/
def stripLeadingDoubleSlash : List Char → List Char
  | '/' :: '/' :: rest => stripLeadingDoubleSlash ('/' :: rest)
  | l => l

/-- The body of the `if 'embed/' in old_src:` branch of
`fix_youtube_embeds`, applied to one src string:
`temp = old_src.replace('embed/', '/embed/')`; strip leading `//`;
prefix `https:/` or `https://www.youtube.com` depending on the prefix;
finally, if still not `http`-prefixed, rebuild from a 2-way split on
`/embed/`. -/
def fixEmbedSrcCore (src : List Char) : List Char :=
  let t1 := pyReplace ("embed/".toList) ("/embed/".toList) src
  let t2 := stripLeadingDoubleSlash t1
  let t3 :=
    if ("/www.youtube.com/embed".toList).isPrefixOf t2 then
      "https://".toList ++ t2.drop 1
    else if ("/embed/".toList).isPrefixOf t2 then
      "https://www.youtube.com".toList ++ t2
    else t2
  if ("http".toList).isPrefixOf t3 then t3
  else
    match pySplit ("/embed/".toList) t3 with
    | [_, b] => "https://www.youtube.com/embed/".toList ++ b
    | _ => t3

/-- The per-src effect of `fix_youtube_embeds` on an iframe's `src`
attribute: rewritten by `fixEmbedSrcCore` when it contains `embed/`,
untouched otherwise. -/
def fix_embed_src (src : String) : String :=
  if hasSubstr ("embed/".toList) src.toList then
    String.mk (fixEmbedSrcCore src.toList)
  else src

/-! ## Parsed HTML (BeautifulSoup) -/

/-- A parsed HTML node: an element with tag, attributes and children, or
a text node.  A document is a `List Node`. -/
inductive Node where
  | text (s : String)
  | elem (tag : String) (attrs : List (String × String)) (children : List Node)

/-- BeautifulSoup `tag.get(key)`: the first attribute with that key. -/
def getAttr (attrs : List (String × String)) (k : String) : Option String :=
  (attrs.find? (fun p => p.1 == k)).map (fun p => p.2)

/-- BeautifulSoup `tag[key] = v`: overwrite the attribute in place, or
append it when absent. -/
def setAttr (attrs : List (String × String)) (k v : String) :
    List (String × String) :=
  if (attrs.find? (fun p => p.1 == k)).isSome then
    attrs.map (fun p => if p.1 == k then (k, v) else p)
  else attrs ++ [(k, v)]

/-- Serialize one attribute as ` key="value"`. -/
def renderAttr (p : String × String) : String :=
  " " ++ p.1 ++ "=" ++ "\"" ++ p.2 ++ "\""

mutual

/-- Serialization of a node tree back to markup (`str(soup)`). -/
def renderNode : Node → String
  | .text s => s
  | .elem tag attrs children =>
    "<" ++ tag ++ String.join (attrs.map renderAttr) ++ ">"
      ++ renderNodes children ++ "</" ++ tag ++ ">"

/-- Serialization of a node list back to markup. -/
def renderNodes : List Node → String
  | [] => ""
  | n :: ns => renderNode n ++ renderNodes ns

end

/-! ## `fix_youtube_embeds` (source lines 109–142) at document level -/

/-- The per-iframe attribute update of `fix_youtube_embeds`:
`old_src = iframe.get('src', '')`; when it contains `embed/`, the
rewritten src is written back (`iframe['src'] = temp`). -/
def fixIframeAttrs (attrs : List (String × String)) :
    List (String × String) :=
  let oldSrc := (getAttr attrs "src").getD ""
  if hasSubstr ("embed/".toList) oldSrc.toList then
    setAttr attrs "src" (fix_embed_src oldSrc)
  else attrs

mutual

/-- `fix_youtube_embeds` acting on one node: `soup.find_all('iframe')`
visits every iframe in the tree, and each matching iframe's src is
rewritten; everything else is left as is. -/
def fixNode : Node → Node
  | .text s => .text s
  | .elem tag attrs children =>
    .elem tag (if tag == "iframe" then fixIframeAttrs attrs else attrs)
      (fixNodes children)

/-- `fix_youtube_embeds` acting on a node list. -/
def fixNodes : List Node → List Node
  | [] => []
  | n :: ns => fixNode n :: fixNodes ns

end

/-- `fix_youtube_embeds` from the source, on a parsed document
(the source's parse / `str(soup)` round-trip is abstracted away). -/
def fix_youtube_embeds (doc : List Node) : List Node :=
  fixNodes doc

/-! ## `extract_file_links_from_html` (source lines 144–154) -/

mutual

/-- Hrefs collected from one node, in document (pre-)order:
`soup.find_all('a', href=True)` filtered to hrefs containing `/files/`. -/
def extractLinksNode : Node → List String
  | .text _ => []
  | .elem tag attrs children =>
    (if tag == "a" ∧ (getAttr attrs "href").isSome
        ∧ hasSubstr ("/files/".toList) ((getAttr attrs "href").getD "").toList
     then [(getAttr attrs "href").getD ""] else [])
      ++ extractLinksNodes children

/-- Hrefs collected from a node list, in document order. -/
def extractLinksNodes : List Node → List String
  | [] => []
  | n :: ns => extractLinksNode n ++ extractLinksNodes ns

end

/-- `extract_file_links_from_html` from the source (on a parsed doc). -/
def extract_file_links_from_html (doc : List Node) : List String :=
  extractLinksNodes doc

/-! ## HTTP model and `canvas_request` (source lines 57–95) -/

/-- Query parameters (`params`): `none` models Python `None` (the
source's `params or {}` default behaves identically for `requests`). -/
abbrev Params := List (String × String)

/-- A decoded JSON response body: either a list of records or one
single (non-list) object. -/
inductive JsonBody (α : Type) where
  | list (elems : List α)
  | obj (o : α)
deriving DecidableEq

/-- One HTTP response: status code, decoded body, and the `next`
link-relation URL from `response.links` (response metadata, not body). -/
structure HttpResponse (α : Type) where
  status : Nat
  body : JsonBody α
  next : Option String

/-- An exception escaping a fetch: `requests.HTTPError` with a status
(raised by `raise_for_status`), a stand-in for non-termination of the
pagination loop, or a non-HTTP Python error (`KeyError`/`TypeError`/…,
which the source's `except requests.HTTPError` clauses do not catch). -/
inductive Exc where
  | http (status : Nat)
  | diverge
  | other (msg : String)
deriving DecidableEq

/-- `response.raise_for_status()` raises exactly for 4xx and 5xx. -/
def raisesForStatus (s : Nat) : Prop := 400 ≤ s ∧ s < 600

instance (s : Nat) : Decidable (raisesForStatus s) := by
  unfold raisesForStatus
  infer_instance

/-- The result shape of `canvas_request`: an accumulated record list, or
a single object returned directly. -/
inductive CanvasResult (α : Type) where
  | records (rs : List α)
  | single (o : α)
deriving DecidableEq

/-- A server: the behaviour of `requests.request(method, url, headers,
params)` as seen through status/body/links.  The source's `urljoin`
with the fixed base URL is abstracted: the server is keyed directly on
the endpoint or next-link string. -/
abbrev Server (α : Type) := String → Option Params → HttpResponse α

/-- The `while url:` loop of `canvas_request`, with fuel: issue the
request, raise for status, accumulate list bodies and follow the `next`
link with `params = None`, or return a non-list body immediately. -/
def canvasPaginate (srv : Server α) :
    Nat → String → Option Params → List α → Except Exc (CanvasResult α)
  | 0, _, _, _ => .error .diverge
  | fuel + 1, url, params, acc =>
    let resp := srv url params
    if raisesForStatus resp.status then .error (.http resp.status)
    else
      match resp.body with
      | .obj o => .ok (.single o)
      | .list xs =>
        match resp.next with
        | some nxt => canvasPaginate srv fuel nxt none (acc ++ xs)
        | none => .ok (.records (acc ++ xs))

/-- `canvas_request` from the source: start the pagination loop at the
endpoint with the caller's params and an empty accumulator. -/
def canvas_request (srv : Server α) (fuel : Nat) (endpoint : String)
    (params : Option Params) : Except Exc (CanvasResult α) :=
  canvasPaginate srv fuel endpoint params []

/-! ## JSON records and the exporter environment -/

/-- A JSON field value as used by the exporters: a scalar rendered as a
string (ids, titles, slugs, urls …), or an HTML body, modelled in its
parsed form. -/
inductive Val where
  | str (s : String)
  | doc (d : List Node)

/-- Format a value into a string (f-string interpolation / direct use);
an HTML body formats as its markup. -/
def Val.asString : Val → String
  | .str s => s
  | .doc d => renderNodes d

/-- A JSON object (Python dict) as a key–value list. -/
abbrev Rec := List (String × Val)

/-- Python `r[k]` without the `KeyError`: the first binding of `k`. -/
def Rec.get? (r : Rec) (k : String) : Option Val :=
  (r.find? (fun p => p.1 == k)).map (fun p => p.2)

/-- Python `r.get(k, d)` for string-valued fields. -/
def Rec.getStrD (r : Rec) (k d : String) : String :=
  match r.get? k with
  | some v => v.asString
  | none => d

/-- Python `r.get(k, default)` for the HTML `body` field; a string value
parses as a single text node, a missing field yields the default
(the source uses `""`, which parses to the empty document). -/
def Rec.getDocD (r : Rec) (k : String) (d : List Node) : List Node :=
  match r.get? k with
  | some (.doc dd) => dd
  | some (.str s) => [Node.text s]
  | none => d

/-- The outside world as the exporters see it: the REST server plus the
status returned by a direct (streaming) download GET on a file URL. -/
structure Env where
  srv : Server Rec
  dl : String → Nat

/-- A reified filesystem effect of the export. -/
inductive FsEvent where
  | mkdir (path : String)
  | download (path : String) (url : String)
  | write (path : String) (doc : List Node)

/-- `download_file` (source lines 97–107): authorized streaming GET with
`raise_for_status`, then the byte stream is written to `save_path`. -/
def download_file (env : Env) (fileUrl savePath : String) :
    Except Exc (List FsEvent) :=
  if raisesForStatus (env.dl fileUrl) then .error (.http (env.dl fileUrl))
  else .ok [.download savePath fileUrl]

/-- The fixed stylesheet block shared by all generated documents
(`STYLE_BLOCK`; the CSS text itself is opaque data, abbreviated here). -/
def STYLE_BLOCK : Node :=
  .elem "style" [] [.text "canvas-saver stylesheet"]

/-- The combined per-module document (source lines 260–267): html/head
with the stylesheet, and a body holding the concatenation of the
accumulated fragments in item-iteration order. -/
def combinedDoc (frags : List (List Node)) : List Node :=
  [.elem "html" []
    [.elem "head" [] [STYLE_BLOCK],
     .elem "body" [] (frags.foldr (fun a b => a ++ b) [])]]

/-! ## Module export (source lines 173–271) -/

/-- `get_module_items` from the source. -/
def get_module_items (env : Env) (fuel : Nat) (cid mid : String) :
    Except Exc (CanvasResult Rec) :=
  canvas_request env.srv fuel
    ("courses/" ++ cid ++ "/modules/" ++ mid ++ "/items") none

/-- The embedded-file loop of the Page branch (source lines 229–241):
for each collected href, extract a file id (skip when none), then fetch
`files/<id>` metadata and download — `except requests.HTTPError` makes
any HTTP failure of that attempt per-file (logged and skipped), while
any other error propagates. -/
def embeddedFilesLoop (env : Env) (fuel : Nat) (moduleDir : String) :
    List String → Except Exc (List FsEvent)
  | [] => .ok []
  | href :: rest =>
    match get_file_info_from_link href with
    | none => embeddedFilesLoop env fuel moduleDir rest
    | some fid =>
      let attempt : Except Exc (List FsEvent) :=
        match canvas_request env.srv fuel ("files/" ++ fid) none with
        | .error e => .error e
        | .ok (.records _) => .error (.other "TypeError")
        | .ok (.single fi) =>
          match fi.get? "url", fi.get? "filename" with
          | none, _ => .error (.other "KeyError: url")
          | _, none => .error (.other "KeyError: filename")
          | some uv, some fnv =>
            download_file env uv.asString
              (moduleDir ++ "/" ++ fnv.asString)
      match attempt with
      | .ok evs =>
        match embeddedFilesLoop env fuel moduleDir rest with
        | .ok more => .ok (evs ++ more)
        | .error e => .error e
      | .error (Exc.http _) => embeddedFilesLoop env fuel moduleDir rest
      | .error e => .error e

/-- One iteration of the item loop of `download_modules` (source lines
195–257): branch on `item["type"]`, producing filesystem events and the
fragments appended to `combined_pages_html` (zero or one). -/
def itemStep (env : Env) (fuel : Nat) (cid moduleDir : String)
    (item : Rec) : Except Exc (List FsEvent × List (List Node)) :=
  match item.get? "type", item.get? "title" with
  | none, _ => .error (.other "KeyError: type")
  | _, none => .error (.other "KeyError: title")
  | some tv, some titlev =>
    let itemType := tv.asString
    let title := titlev.asString
    if itemType = "File" then
      match item.get? "content_id" with
      | none => .error (.other "KeyError: content_id")
      | some fidv =>
        match canvas_request env.srv fuel
            ("courses/" ++ cid ++ "/files/" ++ fidv.asString) none with
        | .error e => .error e
        | .ok (.records _) => .error (.other "TypeError")
        | .ok (.single fi) =>
          match fi.get? "url", fi.get? "filename" with
          | none, _ => .error (.other "KeyError: url")
          | _, none => .error (.other "KeyError: filename")
          | some uv, some fnv =>
            match download_file env uv.asString
                (moduleDir ++ "/" ++ fnv.asString) with
            | .ok evs => .ok (evs, [])
            | .error e => .error e
    else if itemType = "Page" then
      match item.get? "page_url" with
      | none => .error (.other "KeyError: page_url")
      | some slugv =>
        match canvas_request env.srv fuel
            ("courses/" ++ cid ++ "/pages/" ++ slugv.asString) none with
        | .error (Exc.http st) =>
          if st = 404 then .ok ([], []) else .error (.http st)
        | .error e => .error e
        | .ok (.records _) => .error (.other "AttributeError")
        | .ok (.single pd) =>
          let body := pd.getDocD "body" []
          let pageTitle := pd.getStrD "title" "Untitled"
          let fixedBody := fix_youtube_embeds body
          let frag : List Node :=
            Node.elem "h2" [] [Node.text pageTitle]
              :: fixedBody ++ [Node.elem "hr" [] []]
          match embeddedFilesLoop env fuel moduleDir
              (extract_file_links_from_html fixedBody) with
          | .error e => .error e
          | .ok evs => .ok (evs, [frag])
    else if itemType = "ExternalUrl" then
      match item.get? "external_url" with
      | none => .error (.other "KeyError: external_url")
      | some ev =>
        let externalUrl := ev.asString
        let frag : List Node :=
          [Node.elem "h2" [] [Node.text title],
           Node.elem "p" []
             [Node.text "External link: ",
              Node.elem "a" [("href", externalUrl)] [Node.text externalUrl]],
           Node.elem "hr" [] []]
        .ok ([], [frag])
    else if itemType = "ExternalTool" then
      let frag : List Node :=
        [Node.elem "h2" [] [Node.text title],
         Node.elem "p" [] [Node.text "External Tool (LTI)"],
         Node.elem "hr" [] []]
      .ok ([], [frag])
    else
      .ok ([], [])

/-- The item loop of `download_modules`, accumulating events and
fragments in item order. -/
def itemsLoop (env : Env) (fuel : Nat) (cid moduleDir : String) :
    List Rec → Except Exc (List FsEvent × List (List Node))
  | [] => .ok ([], [])
  | it :: rest =>
    match itemStep env fuel cid moduleDir it with
    | .error e => .error e
    | .ok (e1, f1) =>
      match itemsLoop env fuel cid moduleDir rest with
      | .error e => .error e
      | .ok (e2, f2) => .ok (e1 ++ e2, f1 ++ f2)

/-- One iteration of the module loop of `download_modules`: create the
module directory `<id>_<sanitized name>`, fetch the items, run the item
loop, and (only when fragments were accumulated) write the combined
HTML document.  A single-object items response would make the Python
`for item in items:` iterate dict keys, so a non-empty dict raises a
`TypeError` at `item["type"]` and an empty one just skips the loop. -/
def moduleStep (env : Env) (fuel : Nat) (cid baseDir : String)
    (module : Rec) : Except Exc (List FsEvent) :=
  match module.get? "id", module.get? "name" with
  | none, _ => .error (.other "KeyError: id")
  | _, none => .error (.other "KeyError: name")
  | some idv, some namev =>
    let folderName := idv.asString ++ "_" ++ namev.asString
    let sanitizedName := sanitize_filename folderName
    let moduleDir := baseDir ++ "/" ++ sanitizedName
    match get_module_items env fuel cid idv.asString with
    | .error e => .error e
    | .ok (.single r) =>
      if r.isEmpty then .ok [.mkdir moduleDir]
      else .error (.other "TypeError")
    | .ok (.records items) =>
      match itemsLoop env fuel cid moduleDir items with
      | .error e => .error e
      | .ok (evs, frags) =>
        .ok (FsEvent.mkdir moduleDir :: evs
          ++ (if frags.isEmpty then []
              else [FsEvent.write
                (moduleDir ++ "/" ++ sanitizedName ++ "_combined_pages.html")
                (combinedDoc frags)]))

/-- `download_modules` from the source: the module loop. -/
def download_modules (env : Env) (fuel : Nat) (cid : String) :
    List Rec → String → Except Exc (List FsEvent)
  | [], _ => .ok []
  | m :: rest, baseDir =>
    match moduleStep env fuel cid baseDir m with
    | .error e => .error e
    | .ok evs =>
      match download_modules env fuel cid rest baseDir with
      | .ok more => .ok (evs ++ more)
      | .error e => .error e

/-! ## Standalone pages (source lines 277–341) -/

/-- `safe_get_all_pages` from the source: list the course pages,
wrapping a single object in a list; `except requests.HTTPError` with
`status_code == 404` yields the empty list, anything else re-raises. -/
def safe_get_all_pages (env : Env) (fuel : Nat) (cid : String) :
    Except Exc (List Rec) :=
  match canvas_request env.srv fuel ("courses/" ++ cid ++ "/pages") none with
  | .ok (.single o) => .ok [o]
  | .ok (.records l) => .ok l
  | .error (Exc.http st) =>
    if st = 404 then .ok [] else .error (.http st)
  | .error e => .error e

/-- One iteration of the page loop of `download_all_pages`: skip when
the `url` field is missing or falsy, fetch the full page by slug
(404 → skip this page), fix embeds, and write
`all_pages/<sanitized title>.html`. -/
def pageStep (env : Env) (fuel : Nat) (cid pagesDir : String) (p : Rec) :
    Except Exc (List FsEvent) :=
  match p.get? "url" with
  | none => .ok []
  | some uv =>
    let pageUrl := uv.asString
    if pageUrl = "" then .ok []
    else
      let pageTitle := sanitize_filename (p.getStrD "title" "Untitled Page")
      match canvas_request env.srv fuel
          ("courses/" ++ cid ++ "/pages/" ++ pageUrl) none with
      | .error (Exc.http st) =>
        if st = 404 then .ok [] else .error (.http st)
      | .error e => .error e
      | .ok (.records _) => .error (.other "AttributeError")
      | .ok (.single pd) =>
        let fixedBody := fix_youtube_embeds (pd.getDocD "body" [])
        .ok [.write (pagesDir ++ "/" ++ pageTitle ++ ".html")
          [.elem "html" []
            [.elem "head" [] [STYLE_BLOCK],
             .elem "body" []
               (Node.elem "h1" [] [Node.text pageTitle] :: fixedBody)]]]

/-- The page loop of `download_all_pages`. -/
def pagesLoop (env : Env) (fuel : Nat) (cid pagesDir : String) :
    List Rec → Except Exc (List FsEvent)
  | [] => .ok []
  | p :: rest =>
    match pageStep env fuel cid pagesDir p with
    | .error e => .error e
    | .ok evs =>
      match pagesLoop env fuel cid pagesDir rest with
      | .ok more => .ok (evs ++ more)
      | .error e => .error e

/-- `download_all_pages` from the source: nothing at all on an empty
list, otherwise create `all_pages` and run the page loop. -/
def download_all_pages (env : Env) (fuel : Nat) (cid : String)
    (pagesList : List Rec) (baseDir : String) : Except Exc (List FsEvent) :=
  if pagesList.isEmpty then .ok []
  else
    let pagesDir := baseDir ++ "/all_pages"
    match pagesLoop env fuel cid pagesDir pagesList with
    | .ok evs => .ok (FsEvent.mkdir pagesDir :: evs)
    | .error e => .error e

/-! ## Front page (source lines 382–389) -/

/-- `get_front_page` from the source.  Note the bare
`except requests.HTTPError:` — every HTTP error, whatever its status,
is caught and turned into `None`. -/
def get_front_page (env : Env) (fuel : Nat) (cid : String) :
    Except Exc (Option (CanvasResult Rec)) :=
  match canvas_request env.srv fuel
      ("courses/" ++ cid ++ "/front_page") none with
  | .ok d => .ok (some d)
  | .error (Exc.http _) => .ok none
  | .error e => .error e

/-! ## Files (source lines 409–447) -/

/-- `get_all_files` from the source: list the course files, wrapping a
single object; `except requests.HTTPError` with `status_code == 403`
yields the empty list, anything else re-raises. -/
def get_all_files (env : Env) (fuel : Nat) (cid : String) :
    Except Exc (List Rec) :=
  match canvas_request env.srv fuel ("courses/" ++ cid ++ "/files") none with
  | .ok (.single o) => .ok [o]
  | .ok (.records l) => .ok l
  | .error (Exc.http st) =>
    if st = 403 then .ok [] else .error (.http st)
  | .error e => .error e

/-- The file loop of `download_all_files`: fetch `files/<id>` metadata
(404 → skip this file), then download to `all_files/<filename>`. -/
def filesLoop (env : Env) (fuel : Nat) (filesDir : String) :
    List Rec → Except Exc (List FsEvent)
  | [] => .ok []
  | fd :: rest =>
    match fd.get? "id", fd.get? "filename" with
    | none, _ => .error (.other "KeyError: id")
    | _, none => .error (.other "KeyError: filename")
    | some idv, some fnv =>
      match canvas_request env.srv fuel ("files/" ++ idv.asString) none with
      | .error (Exc.http st) =>
        if st = 404 then filesLoop env fuel filesDir rest
        else .error (.http st)
      | .error e => .error e
      | .ok (.records _) => .error (.other "TypeError")
      | .ok (.single fj) =>
        match fj.get? "url" with
        | none => .error (.other "KeyError: url")
        | some uv =>
          match download_file env uv.asString
              (filesDir ++ "/" ++ fnv.asString) with
          | .error e => .error e
          | .ok evs =>
            match filesLoop env fuel filesDir rest with
            | .ok more => .ok (evs ++ more)
            | .error e => .error e

/-- `download_all_files` from the source: nothing on an empty list,
otherwise create `all_files` and run the file loop. -/
def download_all_files (env : Env) (fuel : Nat)
    (filesList : List Rec) (baseDir : String) : Except Exc (List FsEvent) :=
  if filesList.isEmpty then .ok []
  else
    let filesDir := baseDir ++ "/all_files"
    match filesLoop env fuel filesDir filesList with
    | .ok evs => .ok (FsEvent.mkdir filesDir :: evs)
    | .error e => .error e

/-! ## Concrete environments used by the claim theorems -/

/-- Simulated paginated endpoint: 3 pages of 10 records each, chained by
next-links.  The first page demands the caller's query parameters and
the follow-up pages demand `None` params — any deviation answers 400, so
a successful run certifies the parameter discipline of the loop. -/
def pagedServer : Server Nat := fun url params =>
  if url = "list-endpoint" then
    if params = some [("per_page", "10")] then
      ⟨200, .list (List.range' 0 10), some "list-endpoint?page=2"⟩
    else ⟨400, .list [], none⟩
  else if url = "list-endpoint?page=2" then
    if params = none then
      ⟨200, .list (List.range' 10 10), some "list-endpoint?page=3"⟩
    else ⟨400, .list [], none⟩
  else if url = "list-endpoint?page=3" then
    if params = none then ⟨200, .list (List.range' 20 10), none⟩
    else ⟨400, .list [], none⟩
  else ⟨404, .list [], none⟩

/-- Simulated singleton endpoint whose response carries a poisoned
next-link: it answers a single object, and any follow-up request would
fail with 500, so a clean result certifies no pagination was tried. -/
def singleServer : Server Nat := fun url _ =>
  if url = "single-endpoint" then ⟨200, .obj 42, some "poison-next"⟩
  else ⟨500, .list [], none⟩

/-- Simulated chain whose first page is a list and whose second page is
a single (non-list) object. -/
def listThenObjServer : Server Nat := fun url _ =>
  if url = "chain-start" then ⟨200, .list [1, 2, 3], some "chain-tail"⟩
  else if url = "chain-tail" then ⟨200, .obj 99, none⟩
  else ⟨404, .list [], none⟩

/-- A module item of type Page whose slug the server will not resolve. -/
def pageGoneItem : Rec :=
  [("type", .str "Page"), ("title", .str "Lost Page"),
   ("page_url", .str "gone")]

/-- A module item of type ExternalUrl. -/
def extUrlItem : Rec :=
  [("type", .str "ExternalUrl"), ("title", .str "Course Link"),
   ("external_url", .str "https://example.org/course")]

/-- A module whose items are `pageGoneItem` then `extUrlItem`. -/
def demoModule : Rec := [("id", .str "1"), ("name", .str "Mod")]

/-- Server for `demoModule`: the items listing succeeds, the page slug
`gone` answers with the given status, everything else is benign. -/
def slugErrServer (st : Nat) : Server Rec := fun url _ =>
  if url = "courses/c1/modules/1/items" then
    ⟨200, .list [pageGoneItem, extUrlItem], none⟩
  else if url = "courses/c1/pages/gone" then ⟨st, .list [], none⟩
  else ⟨200, .list [], none⟩

/-- Environment around `slugErrServer`; direct downloads always work. -/
def slugErrEnv (st : Nat) : Env := ⟨slugErrServer st, fun _ => 200⟩

/-- Server answering status `st` on one target URL and an empty 200
list everywhere else. -/
def errServer (target : String) (st : Nat) : Server Rec := fun url _ =>
  if url = target then ⟨st, .list [], none⟩ else ⟨200, .list [], none⟩

/-- Environment around `errServer`. -/
def errEnv (target : String) (st : Nat) : Env :=
  ⟨errServer target st, fun _ => 200⟩

/-- Page body for the end-to-end module export: one embedded file link. -/
def introBody : List Node :=
  [Node.elem "p" []
    [Node.elem "a" [("href", "/courses/c1/files/67890/download")]
      [Node.text "Handout"]]]

/-- The full page record behind the slug `intro`. -/
def introPageRec : Rec :=
  [("title", .str "Intro Page"), ("body", .doc introBody)]

/-- The module item pointing at the page `intro`. -/
def introPageItem : Rec :=
  [("type", .str "Page"), ("title", .str "Intro"),
   ("page_url", .str "intro")]

/-- The module of the end-to-end export test. -/
def week1Module : Rec := [("id", .str "7"), ("name", .str "Week 1")]

/-- Metadata of the embedded file 67890. -/
def handoutFileRec : Rec :=
  [("url", .str "https://files.example/67890/handout.pdf"),
   ("filename", .str "handout.pdf")]

/-- Server for the end-to-end module export test. -/
def week1Server : Server Rec := fun url _ =>
  if url = "courses/c1/modules/7/items" then ⟨200, .list [introPageItem], none⟩
  else if url = "courses/c1/pages/intro" then ⟨200, .obj introPageRec, none⟩
  else if url = "files/67890" then ⟨200, .obj handoutFileRec, none⟩
  else ⟨404, .list [], none⟩

/-- Environment of the end-to-end module export test. -/
def week1Env : Env := ⟨week1Server, fun _ => 200⟩

/-- The page fragment the end-to-end export accumulates. -/
def introFrag : List Node :=
  Node.elem "h2" [] [Node.text "Intro Page"]
    :: introBody ++ [Node.elem "hr" [] []]

/-- Server for the embedded-file error case: the items listing and the
page slug `intro` succeed as in `week1Server`, but the embedded-file
metadata endpoint `files/67890` answers with the given status. -/
def embErrServer (st : Nat) : Server Rec := fun url _ =>
  if url = "courses/c1/modules/7/items" then
    ⟨200, .list [introPageItem], none⟩
  else if url = "courses/c1/pages/intro" then ⟨200, .obj introPageRec, none⟩
  else if url = "files/67890" then ⟨st, .list [], none⟩
  else ⟨200, .list [], none⟩

/-- Environment around `embErrServer`; direct downloads always work. -/
def embErrEnv (st : Nat) : Env := ⟨embErrServer st, fun _ => 200⟩

/-- The ExternalUrl fragment `extUrlItem` accumulates. -/
def extUrlFrag : List Node :=
  [Node.elem "h2" [] [Node.text "Course Link"],
   Node.elem "p" []
     [Node.text "External link: ",
      Node.elem "a" [("href", "https://example.org/course")]
        [Node.text "https://example.org/course"]],
   Node.elem "hr" [] []]

/-! ## Helper lemmas -/

/-- A response whose status `raise_for_status` rejects makes the
pagination loop fail with exactly that status. -/
theorem canvasPaginate_http_error (srv : Server α) (fuel : Nat) (url : String)
    (p : Option Params) (acc : List α) (h : raisesForStatus (srv url p).status) :
    canvasPaginate srv (fuel + 1) url p acc
      = .error (.http ((srv url p).status)) := by
  simp only [canvasPaginate]
  rw [if_pos h]

/-- The sanitizer's character map never outputs a forbidden character
(an underscore is not forbidden). -/
theorem sanitizeChar_not_forbidden (c : Char) :
    sanitizeChar c ∉ forbiddenChars := by
  show (if c ∈ forbiddenChars then '_' else c) ∉ forbiddenChars
  by_cases h : c ∈ forbiddenChars
  · rw [if_pos h]
    decide
  · rw [if_neg h]
    exact h

/-- The sanitizer's character map is idempotent. -/
theorem sanitizeChar_idem (c : Char) :
    sanitizeChar (sanitizeChar c) = sanitizeChar c := by
  show (if sanitizeChar c ∈ forbiddenChars then '_' else sanitizeChar c)
      = sanitizeChar c
  rw [if_neg (sanitizeChar_not_forbidden c)]

/-- Overwriting attribute `q` in place does not change the lookup of a
key `k ≠ q`. -/
theorem getAttr_map_update_ne (a : List (String × String)) (k q v : String)
    (h : k ≠ q) :
    getAttr (a.map (fun p => if p.1 == q then (q, v) else p)) k
      = getAttr a k := by
  induction a with
  | nil => rfl
  | cons p rest ih =>
    unfold getAttr at ih ⊢
    by_cases hp : p.1 = q
    · simp only [List.map_cons, List.find?_cons, hp]
      simp only [beq_self_eq_true, if_true]
      have h1 : ((q, v).1 == k) = false := by simp [Ne.symm h]
      have h2 : ((q : String) == k) = false := by simp [Ne.symm h]
      simp only [h1, h2]
      exact ih
    · have hpq : (p.1 == q) = false := by simp [hp]
      simp only [List.map_cons, List.find?_cons, hpq]
      simp only [Bool.false_eq_true, if_false]
      cases hk : (p.1 == k) with
      | true => simp only [List.find?_cons, hk]
      | false =>
        simp only [List.find?_cons, hk]
        exact ih

/-- Appending a binding for `q` does not change the lookup of `k ≠ q`. -/
theorem getAttr_append_single_ne (a : List (String × String))
    (k q v : String) (h : k ≠ q) :
    getAttr (a ++ [(q, v)]) k = getAttr a k := by
  unfold getAttr
  rw [List.find?_append]
  have h1 : List.find? (fun p => p.1 == k) [(q, v)] = none := by
    simp [Ne.symm h]
  rw [h1]
  cases List.find? (fun p => p.1 == k) a <;> rfl

/-- `setAttr` on key `q` leaves every attribute `k ≠ q` unchanged. -/
theorem getAttr_setAttr_ne (a : List (String × String)) (k q v : String)
    (h : k ≠ q) :
    getAttr (setAttr a q v) k = getAttr a k := by
  unfold setAttr
  by_cases hs : (List.find? (fun p => p.1 == q) a).isSome
  · rw [if_pos hs]
    exact getAttr_map_update_ne a k q v h
  · rw [if_neg hs]
    exact getAttr_append_single_ne a k q v h

/-- A non-404 HTTP error on a page slug escapes the Page branch of the
item loop. -/
theorem itemStep_slug_err (st fuel : Nat) (h4 : 400 ≤ st) (h6 : st < 600)
    (hn : st ≠ 404) :
    itemStep (slugErrEnv st) (fuel + 1) "c1" "out/1_Mod" pageGoneItem
      = .error (.http st) := by
  have key : canvas_request (slugErrEnv st).srv (fuel + 1)
      "courses/c1/pages/gone" none = .error (.http st) := by
    unfold canvas_request
    rw [canvasPaginate_http_error _ fuel _ _ _ (by exact ⟨h4, h6⟩)]
    rfl
  unfold itemStep
  simp only [pageGoneItem, Rec.get?, List.find?]
  simp only [Val.asString]
  simp
  rw [key]
  simp [hn]

/-- A non-404 HTTP error on a page slug inside a module aborts
`download_modules` with that status. -/
theorem download_modules_slug_err (st fuel : Nat) (h4 : 400 ≤ st)
    (h6 : st < 600) (hn : st ≠ 404) :
    download_modules (slugErrEnv st) (fuel + 1) "c1" [demoModule] "out"
      = .error (.http st) := by
  have hitems : get_module_items (slugErrEnv st) (fuel + 1) "c1" "1"
      = .ok (.records [pageGoneItem, extUrlItem]) := by
    unfold get_module_items canvas_request
    simp only [canvasPaginate]
    rfl
  have hloop : itemsLoop (slugErrEnv st) (fuel + 1) "c1" "out/1_Mod"
      [pageGoneItem, extUrlItem] = .error (.http st) := by
    unfold itemsLoop
    rw [itemStep_slug_err st fuel h4 h6 hn]
  have hsan : sanitize_filename "1_Mod" = "1_Mod" := rfl
  unfold download_modules moduleStep
  simp only [demoModule, Rec.get?, List.find?, Val.asString]
  simp
  rw [hitems]
  simp only [hsan]
  simp
  rw [hloop]

/-- Any HTTP error status on the embedded-file metadata fetch is caught
by the bare `except requests.HTTPError` of the embedded-file loop: the
link is skipped and the loop succeeds with no download. -/
theorem embeddedFilesLoop_err (st fuel : Nat) (h4 : 400 ≤ st)
    (h6 : st < 600) :
    embeddedFilesLoop (embErrEnv st) (fuel + 1) "out/7_Week 1"
      ["/courses/c1/files/67890/download"] = .ok [] := by
  have key : canvas_request (embErrEnv st).srv (fuel + 1)
      "files/67890" none = .error (.http st) := by
    unfold canvas_request
    rw [canvasPaginate_http_error _ fuel _ _ _ (by exact ⟨h4, h6⟩)]
    rfl
  have hl : get_file_info_from_link "/courses/c1/files/67890/download"
      = some "67890" := rfl
  unfold embeddedFilesLoop
  rw [hl]
  simp
  rw [key]
  simp
  rfl

/-- A Page item still contributes its fragment when its embedded-file
fetch fails with any HTTP status: the error never escapes the item. -/
theorem itemStep_emb_err (st fuel : Nat) (h4 : 400 ≤ st) (h6 : st < 600) :
    itemStep (embErrEnv st) (fuel + 1) "c1" "out/7_Week 1" introPageItem
      = .ok ([], [introFrag]) := by
  have hpage : canvas_request (embErrEnv st).srv (fuel + 1)
      "courses/c1/pages/intro" none = .ok (.single introPageRec) := rfl
  have hx : extract_file_links_from_html
      (fix_youtube_embeds (introPageRec.getDocD "body" []))
      = ["/courses/c1/files/67890/download"] := rfl
  unfold itemStep
  simp only [introPageItem, Rec.get?, List.find?, Val.asString]
  simp
  rw [hpage]
  simp
  rw [hx]
  rw [embeddedFilesLoop_err st fuel h4 h6]
  rfl

/-- An HTTP error on the embedded-file fetch inside a module Page item
is swallowed: `download_modules` completes normally, still writing the
combined document (without the failed download). -/
theorem download_modules_emb_err (st fuel : Nat) (h4 : 400 ≤ st)
    (h6 : st < 600) :
    download_modules (embErrEnv st) (fuel + 1) "c1" [week1Module] "out"
      = .ok [.mkdir "out/7_Week 1",
             .write "out/7_Week 1/7_Week 1_combined_pages.html"
               (combinedDoc [introFrag])] := by
  have hitems : get_module_items (embErrEnv st) (fuel + 1) "c1" "7"
      = .ok (.records [introPageItem]) := by
    unfold get_module_items canvas_request
    simp only [canvasPaginate]
    rfl
  have hloop : itemsLoop (embErrEnv st) (fuel + 1) "c1" "out/7_Week 1"
      [introPageItem] = .ok ([], [introFrag]) := by
    unfold itemsLoop
    rw [itemStep_emb_err st fuel h4 h6]
    rfl
  have hsan : sanitize_filename "7_Week 1" = "7_Week 1" := rfl
  unfold download_modules moduleStep
  simp only [week1Module, Rec.get?, List.find?, Val.asString]
  simp
  rw [hitems]
  simp only [hsan]
  simp
  rw [hloop]
  rfl

/-! # Claim theorems -/

/-- C1: for a paginated listing call to `canvas_request`, list pages are
accumulated in page order following the `next` link-relation metadata —
the simulated endpoint serves 3 pages of 10 records each and rejects any
request whose params deviate from "caller's params on the first request,
none afterwards", so the successful aggregation of exactly the 30
records `0..29` in page order also certifies the parameter discipline;
and a single non-list object is returned immediately, although its
response carries a (poisoned) next link. -/
theorem C1_paginated_fetcher :
    canvas_request pagedServer 5 "list-endpoint" (some [("per_page", "10")])
      = .ok (.records
          (List.range' 0 10 ++ List.range' 10 10 ++ List.range' 20 10)) ∧
    List.range' 0 10 ++ List.range' 10 10 ++ List.range' 20 10
      = List.range 30 ∧
    canvas_request singleServer 5 "single-endpoint" (some [("a", "b")])
      = .ok (.single 42) :=
  ⟨rfl, by decide, rfl⟩

/-- C2 (evaluation at the failing input): the first two mappings of the
claim hold, but an already-canonical src is NOT left unchanged — Python
`replace('embed/', '/embed/')` inserts a slash unconditionally, and the
result starts with `http`, so no later step repairs it: the code turns
`https://www.youtube.com/embed/xyz` into
`https://www.youtube.com//embed/xyz`, a double slash, contradicting the
function's own docstring ("no double slashes"). -/
theorem C2_embed_normalization_eval :
    fix_embed_src "embed/xyz" = "https://www.youtube.com/embed/xyz" ∧
    fix_embed_src "//www.youtube.com/embed/xyz"
      = "https://www.youtube.com/embed/xyz" ∧
    fix_embed_src "https://www.youtube.com/embed/xyz"
      = "https://www.youtube.com//embed/xyz" :=
  ⟨rfl, rfl, rfl⟩

/-- C4: each benign condition is absorbed at its own call site: a 404 on
the pages listing gives the empty list and an empty page export, a 403
on the files listing gives the empty list and an empty files export, and
a 404 on a page slug inside a module skips that item only — the module
directory is still created and the later ExternalUrl item of the same
module still contributes its fragment to the combined document. -/
theorem C4_benign_conditions_isolated :
    safe_get_all_pages (errEnv "courses/c1/pages" 404) 1 "c1" = .ok [] ∧
    download_all_pages (errEnv "courses/c1/pages" 404) 1 "c1" [] "out"
      = .ok [] ∧
    get_all_files (errEnv "courses/c1/files" 403) 1 "c1" = .ok [] ∧
    download_all_files (errEnv "courses/c1/files" 403) 1 [] "out" = .ok [] ∧
    download_modules (slugErrEnv 404) 2 "c1" [demoModule] "out"
      = .ok [.mkdir "out/1_Mod",
             .write "out/1_Mod/1_Mod_combined_pages.html"
               (combinedDoc [extUrlFrag])] :=
  ⟨rfl, rfl, rfl, rfl, rfl⟩

/-- C5: file-identifier extraction from an href: the segment after
`/files/`, cut at the next `/` and `?`, accepted only when all digits;
no `/files/` segment or a non-numeric segment yields no reference. -/
theorem C5_file_info_extraction :
    get_file_info_from_link "/courses/12345/files/67890/download"
      = some "67890" ∧
    get_file_info_from_link "https://x/courses/12345/files/67890?verifier=abc"
      = some "67890" ∧
    get_file_info_from_link "/courses/12345/files/abc" = none ∧
    get_file_info_from_link "/courses/12345/modules/3" = none :=
  ⟨rfl, rfl, rfl, rfl⟩

/-- C6: end-to-end module export: a module with one Page item whose body
holds one embedded file link produces exactly the module directory, the
download of the referenced file into that directory under its filename,
and the combined HTML document (written because page content was
accumulated), whose markup contains the page's h2 title. -/
theorem C6_module_export_end_to_end :
    download_modules week1Env 2 "c1" [week1Module] "out"
      = .ok [.mkdir "out/7_Week 1",
             .download "out/7_Week 1/handout.pdf"
               "https://files.example/67890/handout.pdf",
             .write "out/7_Week 1/7_Week 1_combined_pages.html"
               (combinedDoc [introFrag])] ∧
    hasSubstr ("<h2>Intro Page</h2>".toList)
      (renderNodes (combinedDoc [introFrag])).toList = true :=
  ⟨rfl, rfl⟩

/-- C9: when the first response is a list but a later response in the
pagination chain is a single non-list object, `canvas_request` returns
that object alone — the records `[1, 2, 3]` accumulated from the first
page are silently discarded. -/
theorem C9_later_object_discards_records :
    canvas_request listThenObjServer 5 "chain-start" none
      = .ok (.single 99) :=
  rfl

/-- C3 (counterexample): the claim says a non-404 error on the
front-page fetch is not caught and aborts the export; but
`get_front_page` has a bare `except requests.HTTPError:` — a 500 on the
front-page endpoint is caught and turned into `None`, no exception
propagates. -/
theorem C3_counterexample_front_page :
    get_front_page (errEnv "courses/c1/front_page" 500) 1 "c1"
      = .ok none ∧
    get_front_page (errEnv "courses/c1/front_page" 500) 1 "c1"
      ≠ .error (.http 500) :=
  ⟨rfl, fun h => Except.noConfusion h⟩

/-- C3 (amended): every HTTP error outside the enumerated benign cases
propagates from its call site with its status — shown for a non-404,
non-403 error status on the pages listing, the files listing, and a page
slug inside a module (aborting the whole module export) — EXCEPT at the
two sites with a bare `except requests.HTTPError`: the front-page fetch,
where `get_front_page` turns every HTTP error into `None`, and the
embedded-file fetch/download inside a module Page item, where every HTTP
error is logged and skipped and the module export completes normally,
still writing the combined document. -/
theorem C3_amended_error_propagation (st fuel : Nat) (h4 : 400 ≤ st)
    (h6 : st < 600) (hn404 : st ≠ 404) (hn403 : st ≠ 403) :
    safe_get_all_pages (errEnv "courses/c1/pages" st) (fuel + 1) "c1"
      = .error (.http st) ∧
    get_all_files (errEnv "courses/c1/files" st) (fuel + 1) "c1"
      = .error (.http st) ∧
    download_modules (slugErrEnv st) (fuel + 1) "c1" [demoModule] "out"
      = .error (.http st) ∧
    get_front_page (errEnv "courses/c1/front_page" st) (fuel + 1) "c1"
      = .ok none ∧
    download_modules (embErrEnv st) (fuel + 1) "c1" [week1Module] "out"
      = .ok [.mkdir "out/7_Week 1",
             .write "out/7_Week 1/7_Week 1_combined_pages.html"
               (combinedDoc [introFrag])] := by
  refine ⟨?_, ?_, download_modules_slug_err st fuel h4 h6 hn404, ?_,
    download_modules_emb_err st fuel h4 h6⟩
  · unfold safe_get_all_pages canvas_request
    rw [canvasPaginate_http_error _ fuel _ _ _ (by exact ⟨h4, h6⟩)]
    show (if st = 404 then _ else _) = _
    rw [if_neg hn404]
    rfl
  · unfold get_all_files canvas_request
    rw [canvasPaginate_http_error _ fuel _ _ _ (by exact ⟨h4, h6⟩)]
    show (if st = 403 then _ else _) = _
    rw [if_neg hn403]
    rfl
  · unfold get_front_page canvas_request
    rw [canvasPaginate_http_error _ fuel _ _ _ (by exact ⟨h4, h6⟩)]

/-- Witness for C3 (amended) at the concrete status 500 and fuel 1. -/
theorem C3_amended_witness :
    safe_get_all_pages (errEnv "courses/c1/pages" 500) 1 "c1"
      = .error (.http 500) ∧
    get_all_files (errEnv "courses/c1/files" 500) 1 "c1"
      = .error (.http 500) ∧
    download_modules (slugErrEnv 500) 1 "c1" [demoModule] "out"
      = .error (.http 500) ∧
    get_front_page (errEnv "courses/c1/front_page" 500) 1 "c1"
      = .ok none ∧
    download_modules (embErrEnv 500) 1 "c1" [week1Module] "out"
      = .ok [.mkdir "out/7_Week 1",
             .write "out/7_Week 1/7_Week 1_combined_pages.html"
               (combinedDoc [introFrag])] :=
  C3_amended_error_propagation 500 0 (by decide) (by decide) (by decide)
    (by decide)

/-- C7: `sanitize_filename` is total and pure by construction; it
preserves length, maps each position to `'_'` exactly when the input
character is forbidden (all other characters pass through unchanged),
and consequently no forbidden character appears in any output. -/
theorem C7_sanitizer_pointwise (s : String) :
    (sanitize_filename s).length = s.length ∧
    (∀ i : Nat, (sanitize_filename s).toList[i]?
       = (s.toList[i]?).map
           (fun c => if c ∈ forbiddenChars then '_' else c)) ∧
    (∀ c, c ∈ (sanitize_filename s).toList → c ∉ forbiddenChars) := by
  refine ⟨?_, ?_, ?_⟩
  · show (s.toList.map sanitizeChar).length = s.toList.length
    simp
  · intro i
    show (s.toList.map sanitizeChar)[i]? = _
    rw [List.getElem?_map]
    rfl
  · intro c hc
    have hm : c ∈ s.toList.map sanitizeChar := hc
    rcases List.mem_map.mp hm with ⟨a, _, ha⟩
    subst ha
    exact sanitizeChar_not_forbidden a

/-- Witness for C7 at `s = "a/b"` and `c = 'a'`. -/
theorem C7_sanitizer_witness :
    (sanitize_filename "a/b").length = ("a/b" : String).length ∧
    ('a' ∉ forbiddenChars) :=
  ⟨(C7_sanitizer_pointwise "a/b").1,
   (C7_sanitizer_pointwise "a/b").2.2 'a' (by decide)⟩

/-- C8: `sanitize_filename` is idempotent, and on a string containing no
forbidden character it is the identity transform. -/
theorem C8_sanitizer_idempotent :
    (∀ s : String,
      sanitize_filename (sanitize_filename s) = sanitize_filename s) ∧
    (∀ s : String, (∀ c, c ∈ s.toList → c ∉ forbiddenChars) →
      sanitize_filename s = s) := by
  constructor
  · intro s
    show String.mk ((s.toList.map sanitizeChar).map sanitizeChar) = _
    rw [List.map_map]
    congr 1
    exact List.map_congr_left (fun a _ => sanitizeChar_idem a)
  · intro s h
    show String.mk (s.toList.map sanitizeChar) = s
    have h2 : s.toList.map sanitizeChar = s.toList.map id :=
      List.map_congr_left (fun a ha => if_neg (h a ha))
    rw [h2, List.map_id]
    rfl

/-- Witness for C8 at the already-clean string `"clean.txt"` and the
dirty string `"a:b"`. -/
theorem C8_sanitizer_witness :
    sanitize_filename (sanitize_filename "a:b") = sanitize_filename "a:b" ∧
    sanitize_filename "clean.txt" = "clean.txt" :=
  ⟨C8_sanitizer_idempotent.1 "a:b",
   C8_sanitizer_idempotent.2 "clean.txt" (by decide)⟩

/-- C10 (frame property): `fix_youtube_embeds` leaves text nodes alone;
an element that is not an iframe-with-`embed/`-src keeps its tag and its
attributes exactly (only its children get the same recursive
treatment); an iframe's rewrite touches its attribute list only through
`fixIframeAttrs`, and that update leaves every attribute other than
`src` unchanged. -/
theorem C10_fix_embeds_frame :
    (∀ s, fixNode (Node.text s) = Node.text s) ∧
    (∀ t a c, ¬(t = "iframe" ∧ hasSubstr ("embed/".toList)
          ((getAttr a "src").getD "").toList = true) →
        fixNode (Node.elem t a c) = Node.elem t a (fixNodes c)) ∧
    (∀ a c, fixNode (Node.elem "iframe" a c)
        = Node.elem "iframe" (fixIframeAttrs a) (fixNodes c)) ∧
    (∀ a k, k ≠ "src" → getAttr (fixIframeAttrs a) k = getAttr a k) := by
  refine ⟨fun s => rfl, ?_, fun a c => rfl, ?_⟩
  · intro t a c hn
    show Node.elem t (if t == "iframe" then fixIframeAttrs a else a)
        (fixNodes c) = _
    by_cases ht : t = "iframe"
    · rw [if_pos (show (t == "iframe") = true by simp [ht])]
      have hsub : ¬ hasSubstr ("embed/".toList)
          ((getAttr a "src").getD "").toList = true :=
        fun hcon => hn ⟨ht, hcon⟩
      unfold fixIframeAttrs
      rw [if_neg hsub]
    · rw [if_neg (show ¬(t == "iframe") = true by simp [ht])]
  · intro a k hk
    unfold fixIframeAttrs
    by_cases hsub : hasSubstr ("embed/".toList)
        ((getAttr a "src").getD "").toList = true
    · rw [if_pos hsub]
      exact getAttr_setAttr_ne a k "src"
        (fix_embed_src ((getAttr a "src").getD "")) hk
    · rw [if_neg hsub]

/-- Witness for C10: a div keeps its attributes, and an id attribute of
an iframe with an embed src survives the rewrite. -/
theorem C10_fix_embeds_witness :
    fixNode (Node.elem "div" [("id", "x")] [Node.text "hi"])
      = Node.elem "div" [("id", "x")] [Node.text "hi"] ∧
    getAttr (fixIframeAttrs [("id", "v1"), ("src", "embed/xyz")]) "id"
      = some "v1" :=
  ⟨C10_fix_embeds_frame.2.1 "div" [("id", "x")] [Node.text "hi"]
      (by decide),
   Eq.trans
     (C10_fix_embeds_frame.2.2.2 [("id", "v1"), ("src", "embed/xyz")] "id"
       (by decide))
     rfl⟩

end CanvasSaver
